import Mathlib

/-!
Shallow embedding of `src/preview_server.rs` (doctave-cli preview server).

Paths are modelled at the byte level (`List Nat`, one entry per byte), matching
Unix `OsStr`/`Path`, so that invalid-UTF-8 request paths are representable.
The filesystem is an abstract structure of boolean predicates over normalized
component lists, modelling `Path::is_file` / `Path::is_dir` / `Path::exists`.
I/O effects (`File::open`, `Request::respond`) are modelled as explicit
outcome parameters.
-/

namespace Doctave

/-- Is `b` a UTF-8 continuation byte (`0x80..=0xBF`)? -/
def contByte (b : Nat) : Bool := 128 ≤ b && b < 192

/-- UTF-8 decoder: models Rust `OsStr::to_str` (which succeeds exactly on
well-formed UTF-8: no overlong forms, no surrogates, max `U+10FFFF`).
Returns the decoded character list, or `none` for invalid byte sequences. -/
def utf8Decode : List Nat → Option (List Char)
  | [] => some []
  | b :: rest =>
    if b < 128 then
      (utf8Decode rest).map (fun cs => Char.ofNat b :: cs)
    else if b < 194 then none
    else if b < 224 then
      match rest with
      | b1 :: rest2 =>
        if contByte b1 then
          (utf8Decode rest2).map (fun cs => Char.ofNat ((b - 192) * 64 + (b1 - 128)) :: cs)
        else none
      | [] => none
    else if b < 240 then
      match rest with
      | b1 :: b2 :: rest3 =>
        if contByte b1 && contByte b2 then
          let n := (b - 224) * 4096 + (b1 - 128) * 64 + (b2 - 128)
          if n < 2048 || (55296 ≤ n && n < 57344) then none
          else (utf8Decode rest3).map (fun cs => Char.ofNat n :: cs)
        else none
      | _ => none
    else if b < 245 then
      match rest with
      | b1 :: b2 :: b3 :: rest4 =>
        if contByte b1 && contByte b2 && contByte b3 then
          let n := (b - 240) * 262144 + (b1 - 128) * 4096 + (b2 - 128) * 64 + (b3 - 128)
          if n < 65536 || n > 1114111 then none
          else (utf8Decode rest4).map (fun cs => Char.ofNat n :: cs)
        else none
      | _ => none
    else none

/-- Bytes of an ASCII string literal (test helper; only ever applied to ASCII,
where the UTF-8 bytes are exactly the code points). -/
def strBytes (s : String) : List Nat := s.data.map Char.toNat

/-- Drop leading separators and leading `.` components from a byte path.
Models the `trim_left` normalization `std::path::Components::as_path`
applies once the iterator has consumed a component. -/
def trimLeft : List Nat → List Nat
  | [] => []
  | b :: r =>
    if b = 47 then trimLeft r
    else if b = 46 then
      match r with
      | [] => []
      | 47 :: r2 => trimLeft r2
      | _ => b :: r
    else b :: r

/-- On a REVERSED byte path, drop leading separators and `.` components
(i.e. trailing ones of the original path). Used both for
`Components::as_path`'s `trim_right` and for locating `Path::file_name`. -/
def stripRevJunk : List Nat → List Nat
  | [] => []
  | b :: r =>
    if b = 47 then stripRevJunk r
    else if b = 46 then
      match r with
      | [] => []
      | 47 :: r2 => stripRevJunk r2
      | _ => b :: r
    else b :: r

/-- Drop trailing separators and `.` components from a byte path. -/
def trimRight (bs : List Nat) : List Nat := (stripRevJunk bs.reverse).reverse

/-- Models lines 86-87 of the source:
`let mut components = path.components(); components.next();`
followed by `components.as_path()`. The first component (the root `/` for
absolute request paths, otherwise the first segment) is consumed and the
remaining components are rendered back to a path, with leading/trailing
separators and `.` components trimmed as `Components::as_path` does. -/
def componentsSkipFirstAsPath (bs : List Nat) : List Nat :=
  match bs with
  | [] => []
  | 47 :: r => trimRight (trimLeft r)
  | _ => trimRight (trimLeft (bs.dropWhile (fun b => b != 47)))

/-- Does the byte path start with `/`? Models `Path::is_absolute` on Unix. -/
def isAbsolute (bs : List Nat) : Bool :=
  match bs with
  | 47 :: _ => true
  | _ => false

/-- Models `Path::join` (i.e. `PathBuf::push` on a clone) on Unix:
an absolute right operand replaces the left; otherwise a `/` separator is
inserted unless the left is empty or already ends in `/`. -/
def pathJoin (a b : List Nat) : List Nat :=
  if isAbsolute b then b
  else if a = [] then b
  else if a.getLast? = some 47 then a ++ b
  else a ++ 47 :: b

/-- Split a byte path on `/` into raw segments. -/
def splitSegsAux : List Nat → List Nat → List (List Nat)
  | [], cur => [cur.reverse]
  | 47 :: r, cur => cur.reverse :: splitSegsAux r []
  | b :: r, cur => splitSegsAux r (b :: cur)

/-- Raw `/`-separated segments of a byte path. -/
def splitSegs (bs : List Nat) : List (List Nat) := splitSegsAux bs []

/-- Normalize raw segments the way the operating system resolves a path:
empty and `.` segments vanish, `..` pops the previous segment. -/
def normSegs (segs : List (List Nat)) : List (List Nat) :=
  List.foldl
    (fun acc s =>
      if s = [] then acc
      else if s = [46] then acc
      else if s = [46, 46] then acc.dropLast
      else acc ++ [s])
    [] segs

/-- Normalized component list of a byte path: what the OS actually looks up
when the path is handed to `stat`/`open`. -/
def normalize (bs : List Nat) : List (List Nat) := normSegs (splitSegs bs)

/-- Abstract filesystem: which normalized component lists name a regular
file, a directory, or some other node kind (socket, device, ...).
Quantifying over `Fs` captures "regardless of root directory contents". -/
structure Fs where
  isFileN : List (List Nat) → Bool
  isDirN : List (List Nat) → Bool
  isOtherN : List (List Nat) → Bool

/-- Models `Path::is_file`: the OS resolves the path and reports a regular
file there. -/
def Fs.is_file (fs : Fs) (bs : List Nat) : Bool := fs.isFileN (normalize bs)

/-- Models `Path::is_dir`. -/
def Fs.is_dir (fs : Fs) (bs : List Nat) : Bool := fs.isDirN (normalize bs)

/-- Models `Path::exists`: some node (file, directory, or other) is there. -/
def Fs.pathExists (fs : Fs) (bs : List Nat) : Bool :=
  fs.is_file bs || fs.is_dir bs || fs.isOtherN (normalize bs)

/-- Build a concrete filesystem from explicit lists of normalized file and
directory paths (test fixture helper). -/
def mkFs (files dirs : List (List (List Nat))) : Fs :=
  ⟨fun p => files.contains p, fun p => dirs.contains p, fun _ => false⟩

/-- Locate `Path::file_name` of a byte path: the final non-empty, non-`.`
segment, provided it is not `..`. Returns the name together with the byte
offset just past it inside `bs` (needed by `set_extension`'s truncation). -/
def fileNameRev? (bs : List Nat) : Option (List Nat × Nat) :=
  let r := stripRevJunk bs.reverse
  let seg := r.takeWhile (fun b => b != 47)
  if seg = [] then none
  else if seg = [46, 46] then none
  else some (seg.reverse, r.length)

/-- Models `Path::file_name`. -/
def fileName? (bs : List Nat) : Option (List Nat) :=
  (fileNameRev? bs).map (fun x => x.1)

/-- Split a file name at its last dot, per Rust `Path::extension` /
`Path::file_stem`: returns `(stem length, extension bytes)` when the name
has an extension, i.e. contains a dot that is not its first byte. -/
def extSplit (name : List Nat) : Option (Nat × List Nat) :=
  let r := name.reverse
  let ext := r.takeWhile (fun b => b != 46)
  if ext.length = name.length then none
  else
    let stemLen := name.length - ext.length - 1
    if stemLen = 0 then none
    else some (stemLen, ext.reverse)

/-- Models `Path::extension`. -/
def extensionOf (bs : List Nat) : Option (List Nat) :=
  match fileName? bs with
  | none => none
  | some name => (extSplit name).map (fun x => x.2)

/-- Models `PathBuf::set_extension`: a no-op when the path has no file stem,
otherwise the buffer is truncated right after the stem (replacing any
existing extension) and `.` plus the new extension is appended. -/
def set_extension (bs ext : List Nat) : List Nat :=
  match fileNameRev? bs with
  | none => bs
  | some (name, endIdx) =>
    let stemEnd :=
      match extSplit name with
      | none => endIdx
      | some (stemLen, _) => endIdx - (name.length - stemLen)
    if ext = [] then bs.take stemEnd
    else bs.take stemEnd ++ 46 :: ext

/-- The bytes of `"index.html"`. -/
def indexHtml : List Nat := strBytes "index.html"

/-- The bytes of `"html"` (the extension passed to `set_extension`). -/
def htmlExt : List Nat := strBytes "html"

/-- The character list of the substring `".."` searched for by the guard. -/
def DOTDOT : List Char := ['.', '.']

/-- Models line 82 of the source:
`path.to_str().map(|s| s.contains("..")).unwrap_or(false)`. -/
def containsDotDot (path : List Nat) : Bool :=
  match utf8Decode path with
  | some s => decide (DOTDOT <:+: s)
  | none => false

/-- Models lines 109-128: `content_type_for(extension: Option<&OsStr>)`.
The inner `s.to_str()` is the UTF-8 decode of the extension bytes. -/
def content_type_for (extension : Option (List Nat)) : Option String :=
  match extension with
  | some s =>
    match (utf8Decode s).map List.asString with
    | none => none
    | some str =>
      if str = "txt" then some "text/plain; charset=utf8"
      else if str = "html" then some "text/html; charset=utf8"
      else if str = "htm" then some "text/html; charset=utf8"
      else if str = "css" then some "text/css"
      else if str = "js" then some "text/javascript"
      else if str = "pdf" then some "application/pdf"
      else if str = "zip" then some "application/zip"
      else if str = "jpg" then some "image/jpeg"
      else if str = "jpeg" then some "image/jpeg"
      else if str = "png" then some "image/png"
      else if str = "svg" then some "image/svg+xml"
      else none
  | none => none

/-- Modelled from the spec: the content-type table of spec section 6,
"extension → MIME, case-sensitive exact match". Used only to state the
refinement half of claim C4 against `content_type_for`. -/
def contentTypeTable : List (String × String) :=
  [("txt", "text/plain; charset=utf8"),
   ("html", "text/html; charset=utf8"),
   ("htm", "text/html; charset=utf8"),
   ("css", "text/css"),
   ("js", "text/javascript"),
   ("pdf", "application/pdf"),
   ("zip", "application/zip"),
   ("jpg", "image/jpeg"),
   ("jpeg", "image/jpeg"),
   ("png", "image/png"),
   ("svg", "image/svg+xml")]

/-- Modelled from the spec: content-type inference as a case-sensitive exact
lookup in the fixed table; no entry (or an undecodable extension, or no
extension at all) yields no content type. -/
def content_type_spec (extension : Option (List Nat)) : Option String :=
  match extension with
  | none => none
  | some s =>
    match (utf8Decode s).map List.asString with
    | none => none
    | some str => contentTypeTable.lookup str

/-- Models lines 86-88: the joined candidate filesystem path
`out_dir.join(components.as_path())` after skipping the first component. -/
def candidate_path (path out_dir : List Nat) : List Nat :=
  pathJoin out_dir (componentsSkipFirstAsPath path)

/-- Models lines 86-106 of `resolve_file`: everything after the traversal
guard (path composition and the three-step resolution chain). Line 90 checks
`path.is_file() && path.exists()`, line 92 `path.is_dir() &&
path.join("index.html").exists()`, lines 99-105 the `.html` fallback via
`set_extension`. -/
def resolve_after_guard (path out_dir : List Nat) (fs : Fs) :
    Option (List Nat × Option String) :=
  if fs.is_file (candidate_path path out_dir) &&
      fs.pathExists (candidate_path path out_dir) then
    some (candidate_path path out_dir,
          content_type_for (extensionOf (candidate_path path out_dir)))
  else if fs.is_dir (candidate_path path out_dir) &&
      fs.pathExists (pathJoin (candidate_path path out_dir) indexHtml) then
    some (pathJoin (candidate_path path out_dir) indexHtml,
          content_type_for (extensionOf (pathJoin (candidate_path path out_dir) indexHtml)))
  else if fs.pathExists (set_extension (candidate_path path out_dir) htmlExt) then
    some (set_extension (candidate_path path out_dir) htmlExt,
          content_type_for (extensionOf (set_extension (candidate_path path out_dir) htmlExt)))
  else none

/-- Models lines 81-107: `resolve_file(path, out_dir)`. Returns the path to
serve and its inferred content type, or `none` (`NotFound`). -/
def resolve_file (path out_dir : List Nat) (fs : Fs) :
    Option (List Nat × Option String) :=
  if containsDotDot path then none
  else resolve_after_guard path out_dir fs

/-- Abstraction of `std::io::ErrorKind`: the only kind the code inspects is
`BrokenPipe`, all others are treated alike. -/
inductive ErrorKind
  | brokenPipe
  | notFound
  | permissionDenied
  | otherKind
deriving DecidableEq

/-- Abstraction of `std::io::Error`: its kind plus its display message. -/
structure IoError where
  kind : ErrorKind
  msg : String
deriving DecidableEq

/-- The observable parts of the HTTP response the handler builds:
status code, optional `Content-Type` header, and which file (if any) the
body is read from. -/
structure HttpResponse where
  status : Nat
  contentTypeHeader : Option String
  bodyFile : Option (List Nat)
deriving DecidableEq

/-- Models lines 58-71: the response built from the resolution result.
`Some((f, None))` → 200 without `Content-Type`; `Some((f, Some(ct)))` → 200
with the header; `None` → empty 404. -/
def response_for (r : Option (List Nat × Option String)) : HttpResponse :=
  match r with
  | some (f, none) => ⟨200, none, some f⟩
  | some (f, some ct) => ⟨200, some ct, some f⟩
  | none => ⟨404, none, none⟩

/-- What the worker writes to the process's error stream. -/
inductive WorkerEffect
  | silent
  | stderrLine (line : String)
deriving DecidableEq

/-- How one call of `handle_request` ends: the closure returns normally
(possibly after logging one line to stderr), or a `.unwrap()` panics. -/
inductive HandleOutcome
  | completed (log : WorkerEffect)
  | panicked (msg : String)
deriving DecidableEq

/-- Models lines 74-78: the `match result` on the outcome of
`request.respond(..)`. `Ok` and broken-pipe errors are silently dropped;
any other error is printed to stderr via `eprintln!`. -/
def respond_outcome (r : Except IoError Unit) : HandleOutcome :=
  match r with
  | Except.ok _ => HandleOutcome.completed WorkerEffect.silent
  | Except.error e =>
    if e.kind = ErrorKind.brokenPipe then HandleOutcome.completed WorkerEffect.silent
    else HandleOutcome.completed (WorkerEffect.stderrLine ("    HTTP server threw error: " ++ e.msg))

/-- Models lines 54-79: `handle_request(request, out_dir)`.
`fileOpen` is the outcome of `File::open` per path, `respond` the outcome of
writing the response to the client. In the `Some` branches the code calls
`File::open(f).unwrap()`, so an open failure is a panic, not a logged error. -/
def handle_request (path out_dir : List Nat) (fs : Fs)
    (fileOpen : List Nat → Except IoError Unit)
    (respond : Except IoError Unit) : HandleOutcome :=
  match resolve_file path out_dir fs with
  | some (f, none) =>
    match fileOpen f with
    | Except.error e =>
      HandleOutcome.panicked ("called Result::unwrap() on an Err value: " ++ e.msg)
    | Except.ok _ => respond_outcome respond
  | some (f, some _) =>
    match fileOpen f with
    | Except.error e =>
      HandleOutcome.panicked ("called Result::unwrap() on an Err value: " ++ e.msg)
    | Except.ok _ => respond_outcome respond
  | none => respond_outcome respond

/-! ### Socket address parsing and `PreviewServer::new`

Models `"host:port".parse::<std::net::SocketAddr>()` (`std::net::parser`):
a full IPv4 `a.b.c.d:port` form, or a bracketed IPv6 form
`[groups%scope]:port`, with the whole string consumed. -/

/-- Decimal digit value of a character, if it is one. -/
def digitVal? (c : Char) : Option Nat :=
  if 48 ≤ c.toNat ∧ c.toNat ≤ 57 then some (c.toNat - 48) else none

/-- Hexadecimal digit value of a character, if it is one. -/
def hexVal? (c : Char) : Option Nat :=
  if 48 ≤ c.toNat ∧ c.toNat ≤ 57 then some (c.toNat - 48)
  else if 97 ≤ c.toNat ∧ c.toNat ≤ 102 then some (c.toNat - 87)
  else if 65 ≤ c.toNat ∧ c.toNat ≤ 70 then some (c.toNat - 55)
  else none

/-- Greedily read decimal digits from the front. -/
def spanDigits : List Char → List Nat × List Char
  | [] => ([], [])
  | c :: r =>
    match digitVal? c with
    | some d =>
      let (ds, rest) := spanDigits r
      (d :: ds, rest)
    | none => ([], c :: r)

/-- Greedily read hexadecimal digits from the front. -/
def spanHexDigits : List Char → List Nat × List Char
  | [] => ([], [])
  | c :: r =>
    match hexVal? c with
    | some d =>
      let (ds, rest) := spanHexDigits r
      (d :: ds, rest)
    | none => ([], c :: r)

/-- Value of a big-endian digit list in the given radix. -/
def digitsVal (radix : Nat) (ds : List Nat) : Nat :=
  List.foldl (fun a d => a * radix + d) 0 ds

/-- Expect exactly the character `c` at the front. -/
def expectChar (c : Char) : List Char → Option (List Char)
  | x :: r => if x = c then some r else none
  | [] => none

/-- One IPv4 octet: 1-3 decimal digits, no redundant leading zero, ≤ 255
(`read_number(10, Some(3), false)` in `std::net::parser`). -/
def parseOctet (cs : List Char) : Option (Nat × List Char) :=
  let (ds, rest) := spanDigits cs
  if ds = [] then none
  else if ds.length > 3 then none
  else if ds.head? = some 0 ∧ ds.length > 1 then none
  else
    let v := digitsVal 10 ds
    if v ≤ 255 then some (v, rest) else none

/-- An IPv4 address `a.b.c.d`. -/
def parseIpv4 (cs : List Char) : Option ((Nat × Nat × Nat × Nat) × List Char) := do
  let (a, r1) ← parseOctet cs
  let r2 ← expectChar '.' r1
  let (b, r3) ← parseOctet r2
  let r4 ← expectChar '.' r3
  let (c, r5) ← parseOctet r4
  let r6 ← expectChar '.' r5
  let (d, r7) ← parseOctet r6
  some ((a, b, c, d), r7)

/-- A port: 1+ decimal digits (leading zeros allowed), value fitting `u16`
(`read_number(10, None, true)` accumulated in `u16`). -/
def parsePort (cs : List Char) : Option (Nat × List Char) :=
  let (ds, rest) := spanDigits cs
  if ds = [] then none
  else
    let v := digitsVal 10 ds
    if v ≤ 65535 then some (v, rest) else none

/-- One IPv6 group: 1-4 hexadecimal digits
(`read_number(16, Some(4), true)`). -/
def parseHexGroup (cs : List Char) : Option (Nat × List Char) :=
  let (ds, rest) := spanHexDigits cs
  if ds = [] then none
  else if ds.length > 4 then none
  else some (digitsVal 16 ds, rest)

/-- An embedded trailing IPv4 address, yielding two 16-bit groups. -/
def parseIpv4Pair (cs : List Char) : Option ((Nat × Nat) × List Char) := do
  let ((a, b, c, d), rest) ← parseIpv4 cs
  some ((a * 256 + b, c * 256 + d), rest)

/-- Run a group parser, first consuming a `:` separator unless this is the
first group of the sequence (the `if i > 0 { read_given_char(':') }` in
`read_groups`); fails without consuming on mismatch. -/
def withColon (isFirst : Bool) (p : List Char → Option (α × List Char))
    (cs : List Char) : Option (α × List Char) :=
  if isFirst then p cs
  else
    match cs with
    | ':' :: r => p r
    | _ => none

/-- Models `read_groups` of `std::net::parser`: read up to `cap` 16-bit
groups separated by `:`; when at least two slots remain, a trailing embedded
IPv4 address may fill two groups and end the sequence. Returns the groups,
whether an embedded IPv4 was used, and the remaining input. -/
def readGroupsAux : Nat → Bool → List Char → List Nat × Bool × List Char
  | 0, _, cs => ([], false, cs)
  | cap + 1, isFirst, cs =>
    match (if cap + 1 ≥ 2 then withColon isFirst parseIpv4Pair cs else none) with
    | some ((g1, g2), rest) => ([g1, g2], true, rest)
    | none =>
      match withColon isFirst parseHexGroup cs with
      | some (g, rest) =>
        let (gs, v4, rest2) := readGroupsAux cap false rest
        (g :: gs, v4, rest2)
      | none => ([], false, cs)

/-- Models `read_ipv6_addr`: a head of up to 8 groups; if fewer than 8, a
literal `::` (standing for one or more zero groups, so the tail is limited
to `8 - head - 1` groups) followed by a tail. An embedded IPv4 may only
appear in the trailing position. Returns the 8 groups. -/
def parseIpv6 (cs : List Char) : Option (List Nat × List Char) :=
  let (head, headV4, r1) := readGroupsAux 8 true cs
  if head.length = 8 then some (head, r1)
  else if headV4 then none
  else
    match r1 with
    | ':' :: ':' :: r2 =>
      let limit := 8 - (head.length + 1)
      let (tail, _, r3) := readGroupsAux limit true r2
      some (head ++ List.replicate (8 - head.length - tail.length) 0 ++ tail, r3)
    | _ => none

/-- An optional IPv6 scope id `%n` (decimal, fitting `u32`); on failure
nothing is consumed (the subsequent `]` then fails the whole parse, as in
the atomic parser in std). -/
def parseScopeId (cs : List Char) : Option Nat × List Char :=
  match cs with
  | '%' :: r =>
    let (ds, rest) := spanDigits r
    if ds = [] then (none, cs)
    else
      let v := digitsVal 10 ds
      if v ≤ 4294967295 then (some v, rest) else (none, cs)
  | _ => (none, cs)

/-- Model of `std::net::SocketAddr`. -/
inductive SocketAddrM
  | v4 (ip : Nat × Nat × Nat × Nat) (port : Nat)
  | v6 (groups : List Nat) (scope : Option Nat) (port : Nat)
deriving DecidableEq

/-- `a.b.c.d:port`, consuming the whole input. -/
def parseSocketAddrV4 (cs : List Char) : Option SocketAddrM := do
  let (ip, r1) ← parseIpv4 cs
  let r2 ← expectChar ':' r1
  let (p, r3) ← parsePort r2
  if r3 = [] then some (SocketAddrM.v4 ip p) else none

/-- `[ipv6(%scope)]:port`, consuming the whole input. -/
def parseSocketAddrV6 (cs : List Char) : Option SocketAddrM := do
  let r0 ← expectChar '[' cs
  let (groups, r1) ← parseIpv6 r0
  let (scope, r2) := parseScopeId r1
  let r3 ← expectChar ']' r2
  let r4 ← expectChar ':' r3
  let (p, r5) ← parsePort r4
  if r5 = [] then some (SocketAddrM.v6 groups scope p) else none

/-- Models `addr.parse::<SocketAddr>()`: IPv4 socket form first, otherwise
the IPv6 socket form. -/
def parseSocketAddr (s : String) : Option SocketAddrM :=
  match parseSocketAddrV4 s.data with
  | some a => some a
  | none => parseSocketAddrV6 s.data

/-- Model of the `PreviewServer` struct (lines 10-14). -/
structure PreviewServer where
  color : Bool
  addr : SocketAddrM
  out_dir : List Nat
deriving DecidableEq

/-- How construction ends: a server value, or the `.expect(..)` panic. -/
inductive NewResult
  | ok (server : PreviewServer)
  | panicked (msg : String)
deriving DecidableEq

/-- Models lines 17-23: `PreviewServer::new(addr, out_dir, color)`.
`addr.parse().expect("invalid address for preview server")` panics with that
message when parsing fails; no socket is involved (binding happens only in
`run`, line 26). -/
def PreviewServer.new (addr : String) (out_dir : List Nat) (color : Bool) :
    NewResult :=
  match parseSocketAddr addr with
  | some a => NewResult.ok ⟨color, a, out_dir⟩
  | none => NewResult.panicked "invalid address for preview server"

/-! ### Concrete test fixtures (filesystems given by normalized paths) -/

/-- Root `/out` containing only the file `about.html`. -/
def fsAboutHtml : Fs :=
  mkFs [normalize (strBytes "/out/about.html")] [normalize (strBytes "/out")]

/-- Root `/out` containing only the file `data.json.html`. -/
def fsDataJsonHtmlOnly : Fs :=
  mkFs [normalize (strBytes "/out/data.json.html")] [normalize (strBytes "/out")]

/-- Root `/out` containing only the file `data.html`. -/
def fsDataHtml : Fs :=
  mkFs [normalize (strBytes "/out/data.html")] [normalize (strBytes "/out")]

/-- A filesystem where `/out/page` is simultaneously reported as a regular
file and as a directory containing `index.html`, and `page.html` exists too:
exercises the priority of the three resolution branches. -/
def fsBothFileAndDir : Fs :=
  mkFs
    [normalize (strBytes "/out/page"),
     normalize (strBytes "/out/page/index.html"),
     normalize (strBytes "/out/page.html")]
    [normalize (strBytes "/out/page")]

/-- `/out/page` is a directory with `index.html`, and `page.html` also
exists: the directory branch must win over the `.html` fallback. -/
def fsDirWithIndexAndHtml : Fs :=
  mkFs
    [normalize (strBytes "/out/page/index.html"),
     normalize (strBytes "/out/page.html")]
    [normalize (strBytes "/out/page")]

/-- Root `/out` containing only the extensionless file `img`. -/
def fsImgNoExt : Fs :=
  mkFs [normalize (strBytes "/out/img")] [normalize (strBytes "/out")]

/-- Root `/out` containing only the extensionless file `about`. -/
def fsAboutFile : Fs :=
  mkFs [normalize (strBytes "/out/about")] [normalize (strBytes "/out")]

/-- A request path that is NOT valid UTF-8 (trailing byte `0xFF`) whose raw
bytes contain the `..` sequence: `/..<0xFF>`. -/
def dotdotRawPath : List Nat := [47, 46, 46, 255]

/-- A filesystem containing a file whose name is the raw bytes
`..<0xFF>` inside `/out` (reachable only by a non-UTF-8 request). -/
def fsRawDotDot : Fs :=
  mkFs [[strBytes "out", [46, 46, 255]]] [normalize (strBytes "/out")]

/-- `File::open` outcome oracle: every open fails with ENOENT. -/
def openFail : List Nat → Except IoError Unit :=
  fun _ => Except.error ⟨ErrorKind.notFound, "No such file or directory (os error 2)"⟩

/-- `File::open` outcome oracle: every open succeeds. -/
def openOk : List Nat → Except IoError Unit := fun _ => Except.ok ()

/-! ### Helper lemmas -/

/-- In the filesystem model a regular file always exists. -/
theorem Fs.pathExists_of_is_file (fs : Fs) (p : List Nat)
    (h : fs.is_file p = true) : fs.pathExists p = true := by
  unfold Fs.pathExists
  rw [h]
  rfl

/-- Once the guard is passed, `resolve_file` is the post-guard chain. -/
theorem resolve_file_eq_after (path out_dir : List Nat) (fs : Fs)
    (hguard : containsDotDot path = false) :
    resolve_file path out_dir fs = resolve_after_guard path out_dir fs := by
  unfold resolve_file
  rw [hguard]
  simp

/-- Joining `index.html` onto any path never hits the absolute branch and
leaves the reversed result starting with the reversed file name. -/
theorem stripRevJunk_ihRev (t : List Nat) :
    stripRevJunk (indexHtml.reverse ++ t) = indexHtml.reverse ++ t := rfl

/-- `takeWhile (· != '/')` on the reversed join stops exactly after the
reversed `index.html`. -/
theorem takeWhile_ihRev (t : List Nat) :
    List.takeWhile (fun b => b != 47) (indexHtml.reverse ++ 47 :: t)
      = indexHtml.reverse := rfl

/-- Any path whose reverse starts with reversed `index.html` followed by a
separator has file name `index.html`. -/
theorem fileName?_of_rev_ih (bs t : List Nat)
    (h : bs.reverse = indexHtml.reverse ++ 47 :: t) :
    fileName? bs = some indexHtml := by
  unfold fileName? fileNameRev?
  rw [h, stripRevJunk_ihRev]
  simp only [takeWhile_ihRev]
  rfl

/-- The joined `<candidate>/index.html` always has extension `html`,
whatever the candidate path is. -/
theorem extensionOf_pathJoin_indexHtml (c : List Nat) :
    extensionOf (pathJoin c indexHtml) = some htmlExt := by
  by_cases hc : c = []
  · subst hc
    decide
  · by_cases hl : c.getLast? = some 47
    · have hjoin : pathJoin c indexHtml = c ++ indexHtml := by
        unfold pathJoin
        rw [if_neg (by decide : ¬(isAbsolute indexHtml = true)), if_neg hc, if_pos hl]
      rcases hr : c.reverse with _ | ⟨a, t⟩
      · exact absurd (List.reverse_eq_nil_iff.mp hr) hc
      · have hc2 : c = t.reverse ++ [a] := by
          have := congrArg List.reverse hr
          simpa using this
        have ha : a = 47 := by
          rw [hc2] at hl
          simpa [List.getLast?_concat] using hl
        subst ha
        have hrev : (c ++ indexHtml).reverse = indexHtml.reverse ++ 47 :: t := by
          rw [List.reverse_append, hr]
        rw [hjoin]
        unfold extensionOf
        rw [fileName?_of_rev_ih _ t hrev]
        decide
    · have hjoin : pathJoin c indexHtml = c ++ 47 :: indexHtml := by
        unfold pathJoin
        rw [if_neg (by decide : ¬(isAbsolute indexHtml = true)), if_neg hc, if_neg hl]
      have hrev : (c ++ 47 :: indexHtml).reverse = indexHtml.reverse ++ 47 :: c.reverse := by
        rw [List.reverse_append]
        simp
      rw [hjoin]
      unfold extensionOf
      rw [fileName?_of_rev_ih _ c.reverse hrev]
      decide

/-- The content type inferred for `<candidate>/index.html` is always the
HTML one. -/
theorem content_type_pathJoin_indexHtml (c : List Nat) :
    content_type_for (extensionOf (pathJoin c indexHtml))
      = some "text/html; charset=utf8" := by
  rw [extensionOf_pathJoin_indexHtml]
  decide

set_option maxHeartbeats 1000000

/-- The source's extension dispatch agrees with exact lookup in the spec's
table, for every decoded extension string. -/
theorem ct_refines (str : String) :
    (if str = "txt" then some "text/plain; charset=utf8"
      else if str = "html" then some "text/html; charset=utf8"
      else if str = "htm" then some "text/html; charset=utf8"
      else if str = "css" then some "text/css"
      else if str = "js" then some "text/javascript"
      else if str = "pdf" then some "application/pdf"
      else if str = "zip" then some "application/zip"
      else if str = "jpg" then some "image/jpeg"
      else if str = "jpeg" then some "image/jpeg"
      else if str = "png" then some "image/png"
      else if str = "svg" then some "image/svg+xml"
      else none)
    = contentTypeTable.lookup str := by
  split_ifs with h1 h2 h3 h4 h5 h6 h7 h8 h9 h10 h11
  · subst h1; rfl
  · subst h2; rfl
  · subst h3; rfl
  · subst h4; rfl
  · subst h5; rfl
  · subst h6; rfl
  · subst h7; rfl
  · subst h8; rfl
  · subst h9; rfl
  · subst h10; rfl
  · subst h11; rfl
  · have e1 : (str == "txt") = false := beq_eq_false_iff_ne.mpr h1
    have e2 : (str == "html") = false := beq_eq_false_iff_ne.mpr h2
    have e3 : (str == "htm") = false := beq_eq_false_iff_ne.mpr h3
    have e4 : (str == "css") = false := beq_eq_false_iff_ne.mpr h4
    have e5 : (str == "js") = false := beq_eq_false_iff_ne.mpr h5
    have e6 : (str == "pdf") = false := beq_eq_false_iff_ne.mpr h6
    have e7 : (str == "zip") = false := beq_eq_false_iff_ne.mpr h7
    have e8 : (str == "jpg") = false := beq_eq_false_iff_ne.mpr h8
    have e9 : (str == "jpeg") = false := beq_eq_false_iff_ne.mpr h9
    have e10 : (str == "png") = false := beq_eq_false_iff_ne.mpr h10
    have e11 : (str == "svg") = false := beq_eq_false_iff_ne.mpr h11
    simp [contentTypeTable, List.lookup, e1, e2, e3, e4, e5, e6, e7, e8, e9, e10, e11]

set_option maxHeartbeats 200000

/-- Unfolding equation of `respond_outcome` on an error. -/
theorem respond_outcome_error (e : IoError) :
    respond_outcome (Except.error e) =
      if e.kind = ErrorKind.brokenPipe then
        HandleOutcome.completed WorkerEffect.silent
      else
        HandleOutcome.completed
          (WorkerEffect.stderrLine ("    HTTP server threw error: " ++ e.msg)) := rfl

/-! ### Claim theorems -/

/-- C1: for every request path whose string form contains the substring
`..` anywhere, `resolve_file` returns `NotFound` (`none`), for every root
directory and every filesystem content (so before, and independent of, any
filesystem access). -/
theorem traversal_guard_rejects_dotdot (path out_dir : List Nat) (fs : Fs)
    (cs : List Char) (hdec : utf8Decode path = some cs)
    (hsub : DOTDOT <:+: cs) :
    resolve_file path out_dir fs = none := by
  have hg : containsDotDot path = true := by
    unfold containsDotDot
    rw [hdec]
    exact decide_eq_true hsub
  unfold resolve_file
  rw [hg]
  simp

/-- Witness for C1 at the concrete request `/docs/../x` against a root that
does contain files. -/
theorem traversal_guard_rejects_dotdot_witness :
    utf8Decode (strBytes "/docs/../x") = some "/docs/../x".data
    ∧ DOTDOT <:+: "/docs/../x".data
    ∧ resolve_file (strBytes "/docs/../x") (strBytes "/out") fsAboutHtml = none :=
  ⟨by decide, by decide,
   traversal_guard_rejects_dotdot (strBytes "/docs/../x") (strBytes "/out")
     fsAboutHtml "/docs/../x".data (by decide) (by decide)⟩

/-- C2: past the traversal guard, resolution is first-match-wins in the
order: existing regular file at the candidate path; existing directory whose
joined `index.html` exists; the `set_extension ".html"` variant; `NotFound`. -/
theorem resolution_order_first_match (path out_dir : List Nat) (fs : Fs)
    (hguard : containsDotDot path = false) :
    ((fs.is_file (candidate_path path out_dir) &&
        fs.pathExists (candidate_path path out_dir)) = true →
      resolve_file path out_dir fs =
        some (candidate_path path out_dir,
              content_type_for (extensionOf (candidate_path path out_dir))))
  ∧ ((fs.is_file (candidate_path path out_dir) &&
        fs.pathExists (candidate_path path out_dir)) = false →
      (fs.is_dir (candidate_path path out_dir) &&
        fs.pathExists (pathJoin (candidate_path path out_dir) indexHtml)) = true →
      resolve_file path out_dir fs =
        some (pathJoin (candidate_path path out_dir) indexHtml,
              content_type_for (extensionOf (pathJoin (candidate_path path out_dir) indexHtml))))
  ∧ ((fs.is_file (candidate_path path out_dir) &&
        fs.pathExists (candidate_path path out_dir)) = false →
      (fs.is_dir (candidate_path path out_dir) &&
        fs.pathExists (pathJoin (candidate_path path out_dir) indexHtml)) = false →
      fs.pathExists (set_extension (candidate_path path out_dir) htmlExt) = true →
      resolve_file path out_dir fs =
        some (set_extension (candidate_path path out_dir) htmlExt,
              content_type_for (extensionOf (set_extension (candidate_path path out_dir) htmlExt))))
  ∧ ((fs.is_file (candidate_path path out_dir) &&
        fs.pathExists (candidate_path path out_dir)) = false →
      (fs.is_dir (candidate_path path out_dir) &&
        fs.pathExists (pathJoin (candidate_path path out_dir) indexHtml)) = false →
      fs.pathExists (set_extension (candidate_path path out_dir) htmlExt) = false →
      resolve_file path out_dir fs = none) := by
  rw [resolve_file_eq_after path out_dir fs hguard]
  refine ⟨?_, ?_, ?_, ?_⟩
  · intro h1
    unfold resolve_after_guard
    rw [if_pos h1]
  · intro h1 h2
    unfold resolve_after_guard
    rw [if_neg (by simp [h1]), if_pos h2]
  · intro h1 h2 h3
    unfold resolve_after_guard
    rw [if_neg (by simp [h1]), if_neg (by simp [h2]), if_pos h3]
  · intro h1 h2 h3
    unfold resolve_after_guard
    rw [if_neg (by simp [h1]), if_neg (by simp [h2]), if_neg (by simp [h3])]

/-- Witness for C2, exercising all four branches: a candidate that is both
file and directory (file branch wins), a directory with `index.html` that
also has a `.html` sibling (directory branch wins), the `.html` fallback,
and the final `NotFound`. -/
theorem resolution_order_first_match_witness :
    resolve_file (strBytes "/page") (strBytes "/out") fsBothFileAndDir =
      some (candidate_path (strBytes "/page") (strBytes "/out"),
            content_type_for (extensionOf (candidate_path (strBytes "/page") (strBytes "/out"))))
  ∧ resolve_file (strBytes "/page") (strBytes "/out") fsDirWithIndexAndHtml =
      some (pathJoin (candidate_path (strBytes "/page") (strBytes "/out")) indexHtml,
            content_type_for (extensionOf
              (pathJoin (candidate_path (strBytes "/page") (strBytes "/out")) indexHtml)))
  ∧ resolve_file (strBytes "/about") (strBytes "/out") fsAboutHtml =
      some (set_extension (candidate_path (strBytes "/about") (strBytes "/out")) htmlExt,
            content_type_for (extensionOf
              (set_extension (candidate_path (strBytes "/about") (strBytes "/out")) htmlExt)))
  ∧ resolve_file (strBytes "/missing") (strBytes "/out") fsAboutHtml = none :=
  ⟨(resolution_order_first_match _ _ _ (by decide)).1 (by decide),
   (resolution_order_first_match _ _ _ (by decide)).2.1 (by decide) (by decide),
   (resolution_order_first_match _ _ _ (by decide)).2.2.1 (by decide) (by decide) (by decide),
   (resolution_order_first_match _ _ _ (by decide)).2.2.2 (by decide) (by decide) (by decide)⟩

/-- C3: the fallback step applies `set_extension "html"` to the
already-joined candidate path — replacing an existing extension, not
appending: `/about` is served from `about.html`, while `/data.json` is
resolved against `data.html` (and in particular NOT against
`data.json.html`: with only that file present the result is `NotFound`). -/
theorem html_fallback_replaces_extension (path out_dir : List Nat) (fs : Fs)
    (hguard : containsDotDot path = false)
    (hfile : (fs.is_file (candidate_path path out_dir) &&
        fs.pathExists (candidate_path path out_dir)) = false)
    (hdir : (fs.is_dir (candidate_path path out_dir) &&
        fs.pathExists (pathJoin (candidate_path path out_dir) indexHtml)) = false) :
    (resolve_file path out_dir fs =
      if fs.pathExists (set_extension (candidate_path path out_dir) htmlExt) then
        some (set_extension (candidate_path path out_dir) htmlExt,
              content_type_for (extensionOf (set_extension (candidate_path path out_dir) htmlExt)))
      else none)
  ∧ set_extension (strBytes "/out/about") htmlExt = strBytes "/out/about.html"
  ∧ set_extension (strBytes "/out/data.json") htmlExt = strBytes "/out/data.html"
  ∧ resolve_file (strBytes "/about") (strBytes "/out") fsAboutHtml =
      some (strBytes "/out/about.html", some "text/html; charset=utf8")
  ∧ resolve_file (strBytes "/data.json") (strBytes "/out") fsDataHtml =
      some (strBytes "/out/data.html", some "text/html; charset=utf8")
  ∧ resolve_file (strBytes "/data.json") (strBytes "/out") fsDataJsonHtmlOnly = none := by
  refine ⟨?_, by decide, by decide, by decide, by decide, by decide⟩
  rw [resolve_file_eq_after path out_dir fs hguard]
  unfold resolve_after_guard
  rw [if_neg (by simp [hfile]), if_neg (by simp [hdir])]

/-- Witness for C3 at the concrete request `/about`. -/
theorem html_fallback_replaces_extension_witness :
    resolve_file (strBytes "/about") (strBytes "/out") fsAboutHtml =
      (if fsAboutHtml.pathExists
          (set_extension (candidate_path (strBytes "/about") (strBytes "/out")) htmlExt) then
        some (set_extension (candidate_path (strBytes "/about") (strBytes "/out")) htmlExt,
              content_type_for (extensionOf
                (set_extension (candidate_path (strBytes "/about") (strBytes "/out")) htmlExt)))
      else none) :=
  (html_fallback_replaces_extension _ _ _ (by decide) (by decide) (by decide)).1

/-- C9: when the request path's bytes are not valid UTF-8, `to_str` fails,
`unwrap_or(false)` makes the guard pass, and resolution proceeds to path
composition and filesystem lookup — concretely, the invalid-UTF-8 path
`/..<0xFF>` (whose RAW bytes contain `..`) is not rejected and is served
when the corresponding file exists. -/
theorem invalid_utf8_skips_guard (path out_dir : List Nat) (fs : Fs)
    (hdec : utf8Decode path = none) :
    (containsDotDot path = false
      ∧ resolve_file path out_dir fs = resolve_after_guard path out_dir fs)
  ∧ [46, 46] <:+: dotdotRawPath
  ∧ utf8Decode dotdotRawPath = none
  ∧ resolve_file dotdotRawPath (strBytes "/out") fsRawDotDot =
      some (strBytes "/out/" ++ [46, 46, 255], none) := by
  have hg : containsDotDot path = false := by
    unfold containsDotDot
    rw [hdec]
  exact ⟨⟨hg, resolve_file_eq_after _ _ _ hg⟩, by decide, by decide, by decide⟩

/-- Witness for C9 at the concrete invalid-UTF-8 path. -/
theorem invalid_utf8_skips_guard_witness :
    containsDotDot dotdotRawPath = false
    ∧ resolve_file dotdotRawPath (strBytes "/out") fsRawDotDot =
        resolve_after_guard dotdotRawPath (strBytes "/out") fsRawDotDot :=
  (invalid_utf8_skips_guard dotdotRawPath (strBytes "/out") fsRawDotDot (by decide)).1

/-- C10: whenever resolution succeeds through the directory branch, the
content type is computed from the appended `index.html` file name, hence is
always `text/html; charset=utf8`. -/
theorem dir_branch_serves_text_html (path out_dir : List Nat) (fs : Fs)
    (hguard : containsDotDot path = false)
    (hfile : (fs.is_file (candidate_path path out_dir) &&
        fs.pathExists (candidate_path path out_dir)) = false)
    (hdir : (fs.is_dir (candidate_path path out_dir) &&
        fs.pathExists (pathJoin (candidate_path path out_dir) indexHtml)) = true) :
    resolve_file path out_dir fs =
      some (pathJoin (candidate_path path out_dir) indexHtml,
            some "text/html; charset=utf8") := by
  rw [resolve_file_eq_after path out_dir fs hguard]
  unfold resolve_after_guard
  rw [if_neg (by simp [hfile]), if_pos hdir, content_type_pathJoin_indexHtml]

/-- Witness for C10: a directory request served from its `index.html`. -/
theorem dir_branch_serves_text_html_witness :
    resolve_file (strBytes "/page") (strBytes "/out") fsDirWithIndexAndHtml =
      some (pathJoin (candidate_path (strBytes "/page") (strBytes "/out")) indexHtml,
            some "text/html; charset=utf8") :=
  dir_branch_serves_text_html _ _ _ (by decide) (by decide) (by decide)

/-- C4: content-type inference is a pure, case-sensitive function of the
extension, agreeing everywhere with exact lookup in the fixed table (so any
other extension — including a wrong-case one like `PDF` — or an absent
extension yields `none`); and when resolution carries no content type, the
response carries no `Content-Type` header. -/
theorem content_type_table_exact :
    (∀ ext : Option (List Nat), content_type_for ext = content_type_spec ext)
  ∧ content_type_for (some (strBytes "PDF")) = none
  ∧ content_type_for none = none
  ∧ (∀ (path out_dir : List Nat) (fs : Fs) (f : List Nat),
      resolve_file path out_dir fs = some (f, none) →
      (response_for (resolve_file path out_dir fs)).contentTypeHeader = none) := by
  refine ⟨?_, by decide, by decide, ?_⟩
  · intro ext
    cases ext with
    | none => rfl
    | some s =>
      show (match (utf8Decode s).map List.asString with
            | none => none
            | some str =>
              if str = "txt" then some "text/plain; charset=utf8"
              else if str = "html" then some "text/html; charset=utf8"
              else if str = "htm" then some "text/html; charset=utf8"
              else if str = "css" then some "text/css"
              else if str = "js" then some "text/javascript"
              else if str = "pdf" then some "application/pdf"
              else if str = "zip" then some "application/zip"
              else if str = "jpg" then some "image/jpeg"
              else if str = "jpeg" then some "image/jpeg"
              else if str = "png" then some "image/png"
              else if str = "svg" then some "image/svg+xml"
              else none)
          = (match (utf8Decode s).map List.asString with
             | none => none
             | some str => contentTypeTable.lookup str)
      cases (utf8Decode s).map List.asString with
      | none => rfl
      | some str => exact ct_refines str
  · intro path out_dir fs f h
    rw [h]
    rfl

/-- Witness for C4: the table agreement at `txt`, and a served extensionless
file whose 200 response carries no `Content-Type` header. -/
theorem content_type_table_exact_witness :
    content_type_for (some (strBytes "txt")) = content_type_spec (some (strBytes "txt"))
    ∧ (response_for (resolve_file (strBytes "/img") (strBytes "/out") fsImgNoExt)).contentTypeHeader
        = none :=
  ⟨content_type_table_exact.1 (some (strBytes "txt")),
   content_type_table_exact.2.2.2 (strBytes "/img") (strBytes "/out") fsImgNoExt
     (strBytes "/out/img") (by decide)⟩

/-- C6: when every `File::open` succeeds, a broken-pipe failure of
`request.respond` is silently discarded, any other respond failure is
printed to the error stream, and in all cases the worker closure completes
normally (the failure neither propagates nor panics). -/
theorem respond_errors_contained (path out_dir : List Nat) (fs : Fs)
    (fileOpen : List Nat → Except IoError Unit) (e : IoError)
    (hopen : ∀ f, fileOpen f = Except.ok ()) :
    (e.kind = ErrorKind.brokenPipe →
      handle_request path out_dir fs fileOpen (Except.error e) =
        HandleOutcome.completed WorkerEffect.silent)
  ∧ (e.kind ≠ ErrorKind.brokenPipe →
      handle_request path out_dir fs fileOpen (Except.error e) =
        HandleOutcome.completed
          (WorkerEffect.stderrLine ("    HTTP server threw error: " ++ e.msg)))
  ∧ (∀ r : Except IoError Unit, ∃ w,
      handle_request path out_dir fs fileOpen r = HandleOutcome.completed w) := by
  have hfun : fileOpen = fun _ => Except.ok () := funext hopen
  subst hfun
  have hh : ∀ r : Except IoError Unit,
      handle_request path out_dir fs (fun _ => Except.ok ()) r = respond_outcome r := by
    intro r
    unfold handle_request
    cases resolve_file path out_dir fs with
    | none => rfl
    | some v =>
      rcases v with ⟨f, _ | c⟩ <;> rfl
  refine ⟨?_, ?_, ?_⟩
  · intro hk
    rw [hh, respond_outcome_error, if_pos hk]
  · intro hk
    rw [hh, respond_outcome_error, if_neg hk]
  · intro r
    rw [hh]
    cases r with
    | ok u => exact ⟨WorkerEffect.silent, rfl⟩
    | error e2 =>
      rw [respond_outcome_error]
      by_cases hk : e2.kind = ErrorKind.brokenPipe
      · rw [if_pos hk]
        exact ⟨WorkerEffect.silent, rfl⟩
      · rw [if_neg hk]
        exact ⟨WorkerEffect.stderrLine ("    HTTP server threw error: " ++ e2.msg), rfl⟩

/-- Witness for C6: a broken pipe is swallowed silently; another error is
logged to stderr — both while serving an existing file. -/
theorem respond_errors_contained_witness :
    handle_request (strBytes "/about") (strBytes "/out") fsAboutHtml openOk
        (Except.error ⟨ErrorKind.brokenPipe, "Broken pipe (os error 32)"⟩) =
      HandleOutcome.completed WorkerEffect.silent
    ∧ handle_request (strBytes "/about") (strBytes "/out") fsAboutHtml openOk
        (Except.error ⟨ErrorKind.otherKind, "Connection reset by peer (os error 104)"⟩) =
      HandleOutcome.completed (WorkerEffect.stderrLine
        ("    HTTP server threw error: " ++ "Connection reset by peer (os error 104)")) :=
  ⟨(respond_errors_contained (strBytes "/about") (strBytes "/out") fsAboutHtml openOk
      ⟨ErrorKind.brokenPipe, "Broken pipe (os error 32)"⟩ (fun _ => rfl)).1 rfl,
   (respond_errors_contained (strBytes "/about") (strBytes "/out") fsAboutHtml openOk
      ⟨ErrorKind.otherKind, "Connection reset by peer (os error 104)"⟩ (fun _ => rfl)).2.1
     (by decide)⟩

/-- C7 (evidence): when the resolved file's `File::open` fails between
resolution and open, line 60's `File::open(f).unwrap()` makes the worker
PANIC — the failure is not written to the error stream and the request
handling does not complete; this contradicts the claim that such a failure
is merely logged and the request abandoned. -/
theorem open_failure_panics_not_logged :
    resolve_file (strBytes "/about") (strBytes "/out") fsAboutFile =
      some (strBytes "/out/about", none)
    ∧ handle_request (strBytes "/about") (strBytes "/out") fsAboutFile openFail
        (Except.ok ()) =
      HandleOutcome.panicked
        "called Result::unwrap() on an Err value: No such file or directory (os error 2)" := by
  exact ⟨by decide, by decide⟩

/-- C8: for every bind-address string that the socket-address grammar cannot
parse, `PreviewServer::new` fails immediately at construction time (with the
`expect` message `invalid address for preview server`) and never yields a
constructed server; binding a listening socket happens only later in `run`. -/
theorem bad_bind_address_fails_at_construction (addr : String)
    (out_dir : List Nat) (color : Bool)
    (h : parseSocketAddr addr = none) :
    PreviewServer.new addr out_dir color =
      NewResult.panicked "invalid address for preview server"
    ∧ ∀ s, PreviewServer.new addr out_dir color ≠ NewResult.ok s := by
  constructor
  · unfold PreviewServer.new
    rw [h]
  · intro s heq
    unfold PreviewServer.new at heq
    rw [h] at heq
    exact NewResult.noConfusion heq

/-- Witness for C8 at the unparsable address `not-an-address`. -/
theorem bad_bind_address_fails_at_construction_witness :
    parseSocketAddr "not-an-address" = none
    ∧ PreviewServer.new "not-an-address" (strBytes "/out") false =
        NewResult.panicked "invalid address for preview server" :=
  ⟨by decide,
   (bad_bind_address_fails_at_construction "not-an-address" (strBytes "/out") false
      (by decide)).1⟩

end Doctave
